import Mathlib

/-!
Shallow embedding of `src/lib/api.ts` from the khutab-audio-journey client.

The file models the `generateKhutba` function: offline short-circuit, a
bounded retry loop around `fetch`, HTTP/auth/network error classification,
audio-URL resolution, and the random fallback sermon path.  The network is
modelled as an environment assigning an outcome to each attempt index, and
`Math.random`-based fallback selection as an index in `Fin 3`.
-/

set_option maxRecDepth 4000

/-- Error categories of the `errorType` field of the `Sermon` interface. -/
inductive ErrType where
  | network
  | server
  | auth
  | other
deriving DecidableEq, Repr

/-- The `Sermon` interface of `api.ts` (lines 7-14).  Optional fields are
`Option`; an absent or `undefined` field is `none`. -/
structure Sermon where
  audio_url : String
  text : String
  title : String
  fullAudioUrl : Option String := none
  purpose : Option String := none
  errorType : Option ErrType := none
deriving DecidableEq, Repr

/-- `API_BASE_URL` constant (line 5). -/
def API_BASE_URL : String := "https://islamicaudio.techrealm.online"

/-- `sampleSermon` (lines 17-22). -/
def sampleSermon : Sermon :=
  { audio_url := "/audio/the-transformative-power-of-patience-a-journey-of-self-discovery-and-unity_with_background.wav"
  , text := "In the name of Allah, the Most Gracious, the Most Merciful. Today, we reflect on the virtue of patience in Islam. Patience, or \x27sabr\x27 in Arabic, is mentioned over 90 times in the Quran, highlighting its significance in our faith. The Prophet Muhammad (peace be upon him) said, \x27Patience is light.\x27 Through patience, we find strength in hardship, clarity in confusion, and peace in turmoil. Let us remember that Allah is with those who are patient, as mentioned in Surah Al-Baqarah: \x27O you who have believed, seek help through patience and prayer. Indeed, Allah is with the patient.\x27 As we face life\x27s challenges, let us cultivate patience in our hearts, knowing that with every difficulty comes ease."
  , title := "The Virtue of Patience in Islam"
  , fullAudioUrl := some "https://islamicaudio.techrealm.online/audio/the-transformative-power-of-patience-a-journey-of-self-discovery-and-unity_with_background.wav" }

/-- `sampleSermons` fallback table (lines 25-39). -/
def sampleSermons : List Sermon :=
  [ sampleSermon
  , { audio_url := "/audio/the-transformative-power-of-patience-a-journey-of-self-discovery-and-unity_with_background.wav"
    , text := "Bismillah. The Prophet Muhammad (peace be upon him) said: \x27The strong person is not the one who overcomes people with his strength, but the one who controls himself when angry.\x27 Today we explore how controlling our anger leads to inner peace and stronger community bonds. Through mindfulness and remembrance of Allah, we can transform anger into patience and understanding. Remember the words from the Quran: \x27Those who spend (in Allah\x27s way) in prosperity and in adversity, who restrain anger and pardon people. And Allah loves the doers of good.\x27"
    , title := "Managing Anger: The Islamic Approach to Emotional Control"
    , fullAudioUrl := some "https://islamicaudio.techrealm.online/audio/the-transformative-power-of-patience-a-journey-of-self-discovery-and-unity_with_background.wav" }
  , { audio_url := "/audio/the-transformative-power-of-patience-a-journey-of-self-discovery-and-unity_with_background.wav"
    , text := "In the name of Allah, the Most Compassionate, the Most Merciful. Gratitude (shukr) is central to our faith. The Quran repeatedly reminds us, \x27If you are grateful, I will surely increase you [in favor].\x27 By recognizing and appreciating Allah\x27s countless blessings, we cultivate contentment and resilience. Gratitude transforms our perspective, allowing us to see challenges as opportunities for growth rather than obstacles. Let us practice gratitude daily through our prayers, actions, and interactions with others."
    , title := "The Power of Gratitude in Islamic Tradition"
    , fullAudioUrl := some "https://islamicaudio.techrealm.online/audio/the-transformative-power-of-patience-a-journey-of-self-discovery-and-unity_with_background.wav" } ]

/-- Char-list test that `pat` occurs at the start of `s`; models JS
`String.prototype.startsWith` applied codepoint-wise. -/
def strHasPre : List Char → List Char → Bool
  | [], _ => true
  | _ :: _, [] => false
  | a :: as, b :: bs => a == b && strHasPre as bs

/-- Char-list substring search; models JS `String.prototype.includes`. -/
def strFind (pat : List Char) : List Char → Bool
  | [] => pat.isEmpty
  | c :: cs => strHasPre pat (c :: cs) || strFind pat cs

/-- `s.startsWith(pat)` of JS, on the codepoint lists. -/
def startsWithS (s pat : String) : Bool := strHasPre pat.data s.data

/-- `s.includes(pat)` of JS, on the codepoint lists. -/
def includesS (s pat : String) : Bool := strFind pat.data s.data

/-- `s.toLowerCase()` of JS (codepoint-wise lowering). -/
def toLowerS (s : String) : String := String.mk (s.data.map Char.toLower)

/-- `purpose.charAt(0).toUpperCase() + purpose.slice(1)` (line 253). -/
def capitalizeJS (s : String) : String :=
  match s.data with
  | [] => ""
  | c :: rest => String.mk (Char.toUpper c :: rest)

/-- Outcome of one `fetch` call: either the promise rejects with an error
whose message is `msg`, or it resolves to an HTTP response with a status,
status text, text body (read on the non-ok path, line 100) and parsed JSON
sermon (read on the ok path, line 115). -/
inductive FetchOutcome where
  | reject (msg : String)
  | resolve (status : Nat) (statusText : String) (bodyText : String) (jsonSermon : Sermon)

/-- Environment of one `generateKhutba` call: the `navigator.onLine` probe,
the outcome of the i-th fetch attempt, and the value of
`Math.floor(Math.random() * sampleSermons.length)` (line 249). -/
structure Env where
  online : Bool
  fetches : Nat → FetchOutcome
  randomIndex : Fin 3

/-- `response.ok`: status in the 2xx range. -/
def respOk (status : Nat) : Bool := 200 ≤ status && status < 300

/-- Auth check on a non-ok response (lines 105-108): status 401 or body
markers, case-insensitively. -/
def isAuthResponse (status : Nat) (bodyText : String) : Bool :=
  status == 401
    || includesS (toLowerS bodyText) "unauthenticated"
    || includesS (toLowerS bodyText) "authentication token"
    || includesS (toLowerS bodyText) "auth"

/-- The error message composed for a non-ok, non-auth response (line 101). -/
def serverErrorMessage (status : Nat) (statusText bodyText : String) : String :=
  "Server responded with " ++ toString status ++ ": " ++ statusText ++ ". " ++ bodyText

/-- One iteration of the `try` body inside the while loop (lines 80-137):
the fetch with attempt index `i`, the non-ok classification, and on success
the purpose stamping and audio-URL resolution (lines 115-137). -/
def tryFetchAttempt (env : Env) (purpose : String) (i : Nat) : Except String Sermon :=
  match env.fetches i with
  | .reject msg => .error msg
  | .resolve status statusText bodyText jsonSermon =>
    if respOk status then
      let d := { jsonSermon with purpose := some purpose }
      if d.audio_url ≠ "" then
        if startsWithS d.audio_url "http" then
          .ok { d with fullAudioUrl := some d.audio_url }
        else
          let audioPath := if startsWithS d.audio_url "/" then d.audio_url else "/" ++ d.audio_url
          .ok { d with fullAudioUrl := some (API_BASE_URL ++ audioPath) }
      else
        .ok { d with fullAudioUrl := some "" }
    else
      if isAuthResponse status bodyText then .error "authentication_required"
      else .error (serverErrorMessage status statusText bodyText)

/-- The auth check in the catch block of the loop (lines 143-145): these
errors break out of the loop without retrying. -/
def isAuthCatch (msg : String) : Bool :=
  msg == "authentication_required"
    || includesS msg "authentication"
    || includesS msg "Unauthenticated"

/-- `isNetworkError` substring classification (lines 151-158). -/
def isNetworkErrorMsg (msg : String) : Bool :=
  includesS msg "Failed to fetch"
    || includesS msg "Network error"
    || includesS msg "network"
    || includesS msg "AbortError"
    || includesS msg "timed out"
    || includesS msg "abort"
    || includesS msg "Load failed"

/-- `maxRetries` (line 73). -/
def maxRetries : Nat := 2

/-- Result of running the retry loop: the value it returns or the error it
throws, together with the number of fetch attempts made and the list of
backoff waits (in ms) performed between attempts. -/
structure LoopOut where
  result : Except String Sermon
  attempts : Nat
  waits : List Nat

/-- The `while (retryCount <= maxRetries)` loop (lines 79-173).  `fuel`
is `maxRetries + 1 - retryCount`, the number of loop-condition successes
still possible; the `fuel = 0` case is the normal loop exit falling through
to `throw lastError || new Error(...)` (line 173).  On a retry the wait is
computed AFTER `retryCount++` (lines 161-164), so it is
`1000 * 2 ^ (retryCount + 1)`. -/
def runLoop (env : Env) (purpose : String) : Nat → Nat → Option String → LoopOut
  | 0, _, lastError =>
    { result := .error (lastError.getD "Maximum retries reached")
    , attempts := 0, waits := [] }
  | fuel + 1, retryCount, _ =>
    match tryFetchAttempt env purpose retryCount with
    | .ok s => { result := .ok s, attempts := 1, waits := [] }
    | .error msg =>
      if isAuthCatch msg then
        { result := .error msg, attempts := 1, waits := [] }
      else if isNetworkErrorMsg msg ∧ retryCount < maxRetries then
        let waitTime := 1000 * 2 ^ (retryCount + 1)
        let rest := runLoop env purpose fuel (retryCount + 1) (some msg)
        { result := rest.result, attempts := rest.attempts + 1
        , waits := waitTime :: rest.waits }
      else
        { result := .error msg, attempts := 1, waits := [] }

/-- Body of the outer `try` (lines 52-173): offline short-circuit then the
retry loop starting at `retryCount = 0`. -/
def innerBody (env : Env) (purpose : String) : LoopOut :=
  if env.online then runLoop env purpose (maxRetries + 1) 0 none
  else { result := .error "network_offline", attempts := 0, waits := [] }

/-- Error-type classification of the outer catch block (lines 182-219). -/
def classifyError (msg : String) : ErrType :=
  if msg == "network_offline" then .network
  else if msg == "authentication_required"
      || includesS msg "authentication"
      || includesS msg "Unauthenticated"
      || includesS msg "auth token" then .auth
  else if isNetworkErrorMsg msg then .network
  else if includesS msg "500" || includesS msg "503" || includesS msg "server" then .server
  else .other

/-- The fallback sermon built in the outer catch block (lines 248-267):
random table entry, customized title, purpose and errorType stamped on. -/
def fallbackSermonFor (env : Env) (purpose : String) (msg : String) : Sermon :=
  let fallbackSermon := sampleSermons.getD env.randomIndex.val sampleSermon
  { fallbackSermon with
    title := fallbackSermon.title ++ " - " ++ capitalizeJS purpose
  , purpose := some purpose
  , errorType := some (classifyError msg) }

/-- A `generateKhutba` call together with its observable attempt count and
backoff waits. -/
structure RunOut where
  sermon : Sermon
  attempts : Nat
  waits : List Nat

/-- `generateKhutba` (lines 51-269), instrumented with attempts/waits. -/
def generateKhutbaRun (env : Env) (purpose : String) : RunOut :=
  let lo := innerBody env purpose
  match lo.result with
  | .ok s => { sermon := s, attempts := lo.attempts, waits := lo.waits }
  | .error msg =>
    { sermon := fallbackSermonFor env purpose msg
    , attempts := lo.attempts, waits := lo.waits }

/-- The value `generateKhutba` resolves with. -/
def generateKhutba (env : Env) (purpose : String) : Sermon :=
  (generateKhutbaRun env purpose).sermon

/-! ### Helper lemmas -/

/-- Prefixing the constant base URL keeps the result starting with "http". -/
lemma base_append_http (path : String) : startsWithS (API_BASE_URL ++ path) "http" = true := by
  cases path with
  | mk l => rfl

/-- The instrumented run reports the attempts counted by the loop body. -/
lemma generateKhutbaRun_attempts (env : Env) (purpose : String) :
    (generateKhutbaRun env purpose).attempts = (innerBody env purpose).attempts := by
  rcases h : (innerBody env purpose).result with msg | s <;>
    simp [generateKhutbaRun, h]

/-- The instrumented run reports the waits performed by the loop body. -/
lemma generateKhutbaRun_waits (env : Env) (purpose : String) :
    (generateKhutbaRun env purpose).waits = (innerBody env purpose).waits := by
  rcases h : (innerBody env purpose).result with msg | s <;>
    simp [generateKhutbaRun, h]

/-- If the first attempt succeeds with `s`, the call returns `s` after one
attempt and no backoff wait. -/
lemma generateKhutbaRun_first_ok (env : Env) (purpose : String) (s : Sermon)
    (hon : env.online = true) (h : tryFetchAttempt env purpose 0 = .ok s) :
    generateKhutbaRun env purpose = { sermon := s, attempts := 1, waits := [] } := by
  simp [generateKhutbaRun, innerBody, hon, maxRetries, runLoop, h]

/-- On any error escaping the loop (or the offline short-circuit), the call
returns the customized fallback sermon. -/
lemma generateKhutbaRun_fail (env : Env) (purpose msg : String)
    (h : (innerBody env purpose).result = .error msg) :
    generateKhutba env purpose = fallbackSermonFor env purpose msg := by
  simp [generateKhutba, generateKhutbaRun, h]

/-- If the loop body yields a sermon, the sermon is the returned value. -/
lemma generateKhutba_ok (env : Env) (purpose : String) (s : Sermon)
    (h : (innerBody env purpose).result = .ok s) :
    generateKhutba env purpose = s := by
  simp [generateKhutba, generateKhutbaRun, h]

/-- Any sermon the retry loop returns was produced by some fetch attempt. -/
lemma runLoop_ok_shape (env : Env) (purpose : String) :
    ∀ (fuel rc : Nat) (le : Option String) (s : Sermon),
      (runLoop env purpose fuel rc le).result = .ok s →
      ∃ i, tryFetchAttempt env purpose i = .ok s := by
  intro fuel
  induction fuel with
  | zero => intro rc le s h; simp [runLoop] at h
  | succ n ih =>
    intro rc le s h
    rw [runLoop] at h
    rcases hta : tryFetchAttempt env purpose rc with msg | s'
    · rw [hta] at h
      simp only at h
      by_cases hac : isAuthCatch msg
      · simp [hac] at h
      · by_cases hre : isNetworkErrorMsg msg ∧ rc < maxRetries
        · simp [hac, hre] at h
          exact ih (rc + 1) (some msg) s h
        · simp [hac, hre] at h
    · rw [hta] at h
      simp only at h
      exact ⟨rc, by rw [hta, h]⟩

/-- Any sermon the loop body yields was produced by some fetch attempt. -/
lemma innerBody_ok_exists (env : Env) (purpose : String) (s : Sermon)
    (h : (innerBody env purpose).result = .ok s) :
    ∃ i, tryFetchAttempt env purpose i = .ok s := by
  by_cases hon : env.online = true
  · rw [innerBody, if_pos hon] at h
    exact runLoop_ok_shape env purpose (maxRetries + 1) 0 none s h
  · rw [innerBody, if_neg hon] at h
    simp at h

/-- A sermon produced by a successful fetch attempt has its full URL set:
empty when `audio_url` was empty, otherwise something starting in "http". -/
lemma tryFetchAttempt_ok_shape (env : Env) (purpose : String) (i : Nat) (s : Sermon)
    (h : tryFetchAttempt env purpose i = .ok s) :
    s.fullAudioUrl = some "" ∨
      ∃ u, s.fullAudioUrl = some u ∧ startsWithS u "http" = true := by
  rw [tryFetchAttempt] at h
  rcases hf : env.fetches i with msg | ⟨st, stt, bt, js⟩ <;> rw [hf] at h
  · simp at h
  · simp only at h
    by_cases hok : respOk st
    · simp only [hok, if_true] at h
      by_cases hne : ({ js with purpose := some purpose } : Sermon).audio_url ≠ ""
      · rw [if_pos hne] at h
        by_cases hsw : startsWithS ({ js with purpose := some purpose } : Sermon).audio_url "http"
        · rw [if_pos hsw] at h
          cases h
          right
          exact ⟨_, rfl, hsw⟩
        · rw [if_neg hsw] at h
          cases h
          right
          exact ⟨_, rfl, base_append_http _⟩
      · rw [if_neg hne] at h
        cases h
        left
        rfl
    · rw [if_neg hok] at h
      by_cases ha : isAuthResponse st bt
      · rw [if_pos ha] at h
        simp at h
      · rw [if_neg ha] at h
        simp at h

/-- Every fallback-table entry carries an absolute (http-prefixed) URL. -/
lemma table_absolute (i : Fin 3) :
    ∃ u, (sampleSermons.getD i.val sampleSermon).fullAudioUrl = some u ∧
      startsWithS u "http" = true := by
  fin_cases i <;> exact ⟨_, rfl, by decide⟩

/-! ### Claim theorems -/

/-- Claim C1 (confirmed): for every purpose string and every network
behaviour, `generateKhutba` is a total function into `Sermon` (it never
propagates an exception), and on every failure path — every run in which the
try-body ends in a thrown error — the returned sermon has `errorType` set. -/
theorem khutba_failure_path_sets_errorType (env : Env) (purpose msg : String)
    (h : (innerBody env purpose).result = .error msg) :
    ((generateKhutba env purpose).errorType).isSome = true := by
  rw [generateKhutbaRun_fail env purpose msg h]
  rfl

def envC1w : Env :=
  { online := false, fetches := fun _ => .reject "z", randomIndex := 0 }

/-- Witness for C1 at an offline environment. -/
theorem khutba_failure_path_sets_errorType_witness :
    ((generateKhutba envC1w "guidance").errorType).isSome = true :=
  khutba_failure_path_sets_errorType envC1w "guidance" "network_offline" rfl

/-- Claim C7 (confirmed): when the connectivity probe reports offline, no
fetch attempt is made, the fallback sermon's `errorType` is `network`, and
its title is the table title with " - " and the capitalized purpose
appended. -/
theorem khutba_offline_fallback (env : Env) (purpose : String)
    (hoff : env.online = false) :
    (generateKhutbaRun env purpose).attempts = 0 ∧
    (generateKhutba env purpose).errorType = some ErrType.network ∧
    (generateKhutba env purpose).title =
      (sampleSermons.getD env.randomIndex.val sampleSermon).title ++ " - " ++
        capitalizeJS purpose := by
  have hinner : innerBody env purpose =
      { result := .error "network_offline", attempts := 0, waits := [] } := by
    simp [innerBody, hoff]
  have hfb := generateKhutbaRun_fail env purpose "network_offline" (by rw [hinner])
  refine ⟨by rw [generateKhutbaRun_attempts, hinner], ?_, ?_⟩
  · rw [hfb]
    show some (classifyError "network_offline") = some ErrType.network
    decide
  · rw [hfb]
    rfl

def envC7w : Env :=
  { online := false, fetches := fun _ => .reject "z", randomIndex := 0 }

/-- Witness for C7 at a concrete offline environment. -/
theorem khutba_offline_fallback_witness :
    (generateKhutbaRun envC7w "grief").attempts = 0 ∧
    (generateKhutba envC7w "grief").errorType = some ErrType.network ∧
    (generateKhutba envC7w "grief").title =
      (sampleSermons.getD envC7w.randomIndex.val sampleSermon).title ++ " - " ++
        capitalizeJS "grief" :=
  khutba_offline_fallback envC7w "grief" rfl

/-- Claim C9 (confirmed): on every failure path the returned sermon is the
table entry selected by the random index, with exactly the title (suffixed),
purpose and errorType fields changed; text, audio_url and fullAudioUrl are
those of the table entry unchanged. -/
theorem khutba_fallback_frame (env : Env) (purpose msg : String)
    (h : (innerBody env purpose).result = .error msg) :
    generateKhutba env purpose =
      { sampleSermons.getD env.randomIndex.val sampleSermon with
        title := (sampleSermons.getD env.randomIndex.val sampleSermon).title ++
          " - " ++ capitalizeJS purpose
      , purpose := some purpose
      , errorType := some (classifyError msg) } := by
  rw [generateKhutbaRun_fail env purpose msg h]
  rfl

def envC9w : Env :=
  { online := false, fetches := fun _ => .reject "z", randomIndex := 1 }

/-- Witness for C9 at a concrete offline environment and table index 1. -/
theorem khutba_fallback_frame_witness :
    generateKhutba envC9w "unity" =
      { sampleSermons.getD envC9w.randomIndex.val sampleSermon with
        title := (sampleSermons.getD envC9w.randomIndex.val sampleSermon).title ++
          " - " ++ capitalizeJS "unity"
      , purpose := some "unity"
      , errorType := some (classifyError "network_offline") } :=
  khutba_fallback_frame envC9w "unity" "network_offline" rfl

/-- Claim C4 (confirmed): a first response with status 401 or an
auth-marked body causes exactly one attempt (no retry) and a fallback with
`errorType = auth`. -/
theorem khutba_auth_failure_single_attempt (env : Env) (purpose : String)
    (st : Nat) (stt bt : String) (js : Sermon)
    (hon : env.online = true)
    (hf : env.fetches 0 = .resolve st stt bt js)
    (hok : respOk st = false)
    (hauth : isAuthResponse st bt = true) :
    (generateKhutbaRun env purpose).attempts = 1 ∧
    (generateKhutba env purpose).errorType = some ErrType.auth := by
  have hta : tryFetchAttempt env purpose 0 = .error "authentication_required" := by
    rw [tryFetchAttempt, hf]
    simp [hok, hauth]
  have hinner : innerBody env purpose =
      { result := .error "authentication_required", attempts := 1, waits := [] } := by
    simp [innerBody, hon, maxRetries, runLoop, hta, isAuthCatch]
  refine ⟨by rw [generateKhutbaRun_attempts, hinner], ?_⟩
  rw [generateKhutbaRun_fail env purpose "authentication_required" (by rw [hinner])]
  show some (classifyError "authentication_required") = some ErrType.auth
  decide

def jsPlain : Sermon := { audio_url := "foo.wav", text := "t", title := "T" }

def envC4w : Env :=
  { online := true
  , fetches := fun _ => .resolve 401 "Unauthorized" "err" jsPlain
  , randomIndex := 0 }

/-- Witness for C4 at a simulated 401 response. -/
theorem khutba_auth_failure_single_attempt_witness :
    (generateKhutbaRun envC4w "peace").attempts = 1 ∧
    (generateKhutba envC4w "peace").errorType = some ErrType.auth :=
  khutba_auth_failure_single_attempt envC4w "peace" 401 "Unauthorized" "err"
    jsPlain rfl rfl (by decide) (by decide)

/-- Claim C2 (confirmed): on a successful first response, a relative
`audio_url` (not starting with "http") resolves to the base URL plus the
path with a leading slash added exactly when missing, while an `audio_url`
already starting with "http" is passed through unchanged. -/
theorem khutba_success_resolves_audio_url (env : Env) (purpose : String)
    (st : Nat) (stt bt : String) (js : Sermon)
    (hon : env.online = true)
    (hf : env.fetches 0 = .resolve st stt bt js)
    (hok : respOk st = true)
    (hne : js.audio_url ≠ "") :
    (startsWithS js.audio_url "http" = true →
      (generateKhutba env purpose).fullAudioUrl = some js.audio_url) ∧
    (startsWithS js.audio_url "http" = false →
      (generateKhutba env purpose).fullAudioUrl =
        some (API_BASE_URL ++
          if startsWithS js.audio_url "/" = true then js.audio_url
          else "/" ++ js.audio_url)) := by
  constructor
  · intro hsw
    have hta : tryFetchAttempt env purpose 0 =
        .ok { js with purpose := some purpose, fullAudioUrl := some js.audio_url } := by
      rw [tryFetchAttempt, hf]
      simp [hok, hne, hsw]
    simp [generateKhutba, generateKhutbaRun_first_ok env purpose _ hon hta]
  · intro hsw
    have hta : tryFetchAttempt env purpose 0 =
        .ok { js with
          purpose := some purpose,
          fullAudioUrl := some (API_BASE_URL ++
            if startsWithS js.audio_url "/" = true then js.audio_url
            else "/" ++ js.audio_url) } := by
      rw [tryFetchAttempt, hf]
      simp [hok, hne, hsw]
    simp [generateKhutba, generateKhutbaRun_first_ok env purpose _ hon hta]

def envC2w : Env :=
  { online := true
  , fetches := fun _ => .resolve 200 "OK" "" jsPlain
  , randomIndex := 0 }

/-- Witness for C2 at a success response carrying `audio_url = "foo.wav"`. -/
theorem khutba_success_resolves_audio_url_witness :
    (startsWithS "foo.wav" "http" = true →
      (generateKhutba envC2w "unity").fullAudioUrl = some "foo.wav") ∧
    (startsWithS "foo.wav" "http" = false →
      (generateKhutba envC2w "unity").fullAudioUrl =
        some (API_BASE_URL ++
          if startsWithS "foo.wav" "/" = true then "foo.wav"
          else "/" ++ "foo.wav")) :=
  khutba_success_resolves_audio_url envC2w "unity" 200 "OK" "" jsPlain
    rfl rfl (by decide) (by decide)

/-- Claim C10 (confirmed): a successful response whose `audio_url` is the
empty string still returns successfully, with `fullAudioUrl` set to the
empty string and `errorType` left unset. -/
theorem khutba_empty_audio_url_success (env : Env) (purpose : String)
    (st : Nat) (stt bt : String) (js : Sermon)
    (hon : env.online = true)
    (hf : env.fetches 0 = .resolve st stt bt js)
    (hok : respOk st = true)
    (he : js.audio_url = "")
    (het : js.errorType = none) :
    generateKhutba env purpose =
      { js with purpose := some purpose, fullAudioUrl := some "" } ∧
    (generateKhutba env purpose).errorType = none := by
  have hta : tryFetchAttempt env purpose 0 =
      .ok { js with purpose := some purpose, fullAudioUrl := some "" } := by
    rw [tryFetchAttempt, hf]
    simp [hok, he]
  have hrun := generateKhutbaRun_first_ok env purpose _ hon hta
  exact ⟨by simp [generateKhutba, hrun],
         by simp [generateKhutba, hrun, het]⟩

def jsEmpty : Sermon := { audio_url := "", text := "t", title := "T" }

def envC10w : Env :=
  { online := true
  , fetches := fun _ => .resolve 200 "OK" "" jsEmpty
  , randomIndex := 0 }

/-- Witness for C10 at a success response with an empty `audio_url`. -/
theorem khutba_empty_audio_url_success_witness :
    generateKhutba envC10w "peace" =
      { jsEmpty with purpose := some "peace", fullAudioUrl := some "" } ∧
    (generateKhutba envC10w "peace").errorType = none :=
  khutba_empty_audio_url_success envC10w "peace" 200 "OK" "" jsEmpty
    rfl rfl (by decide) rfl rfl

/-- Claim C8 (confirmed): if the first two attempts fail with
network-classified (non-auth) errors and the third attempt succeeds, then
exactly 3 attempts occur, the returned sermon keeps the response's unset
`errorType`, and its full audio URL follows the resolution rule. -/
theorem khutba_two_network_failures_then_success (env : Env) (purpose m0 m1 : String)
    (st : Nat) (stt bt : String) (js : Sermon)
    (hon : env.online = true)
    (h0 : env.fetches 0 = .reject m0)
    (hn0 : isNetworkErrorMsg m0 = true) (ha0 : isAuthCatch m0 = false)
    (h1 : env.fetches 1 = .reject m1)
    (hn1 : isNetworkErrorMsg m1 = true) (ha1 : isAuthCatch m1 = false)
    (h2 : env.fetches 2 = .resolve st stt bt js)
    (hok : respOk st = true) (hne : js.audio_url ≠ "")
    (het : js.errorType = none) :
    (generateKhutbaRun env purpose).attempts = 3 ∧
    (generateKhutba env purpose).errorType = none ∧
    (generateKhutba env purpose).fullAudioUrl =
      some (if startsWithS js.audio_url "http" = true then js.audio_url
            else API_BASE_URL ++
              if startsWithS js.audio_url "/" = true then js.audio_url
              else "/" ++ js.audio_url) := by
  have hta0 : tryFetchAttempt env purpose 0 = .error m0 := by
    rw [tryFetchAttempt, h0]
  have hta1 : tryFetchAttempt env purpose 1 = .error m1 := by
    rw [tryFetchAttempt, h1]
  by_cases hsw : startsWithS js.audio_url "http" = true
  · have hta2 : tryFetchAttempt env purpose 2 =
        .ok { js with purpose := some purpose, fullAudioUrl := some js.audio_url } := by
      rw [tryFetchAttempt, h2]
      simp [hok, hne, hsw]
    have hinner : innerBody env purpose =
        { result := .ok { js with purpose := some purpose, fullAudioUrl := some js.audio_url }
        , attempts := 3, waits := [2000, 4000] } := by
      simp [innerBody, hon, maxRetries, runLoop, hta0, hta1, hta2, ha0, ha1, hn0, hn1]
    refine ⟨by rw [generateKhutbaRun_attempts, hinner], ?_, ?_⟩
    · rw [generateKhutba_ok env purpose _ (by rw [hinner])]
      simpa using het
    · rw [generateKhutba_ok env purpose _ (by rw [hinner])]
      simp [hsw]
  · have hta2 : tryFetchAttempt env purpose 2 =
        .ok { js with
          purpose := some purpose,
          fullAudioUrl := some (API_BASE_URL ++
            if startsWithS js.audio_url "/" = true then js.audio_url
            else "/" ++ js.audio_url) } := by
      rw [tryFetchAttempt, h2]
      simp [hok, hne, hsw]
    have hinner : innerBody env purpose =
        { result := .ok { js with
            purpose := some purpose,
            fullAudioUrl := some (API_BASE_URL ++
              if startsWithS js.audio_url "/" = true then js.audio_url
              else "/" ++ js.audio_url) }
        , attempts := 3, waits := [2000, 4000] } := by
      simp [innerBody, hon, maxRetries, runLoop, hta0, hta1, hta2, ha0, ha1, hn0, hn1]
    refine ⟨by rw [generateKhutbaRun_attempts, hinner], ?_, ?_⟩
    · rw [generateKhutba_ok env purpose _ (by rw [hinner])]
      simpa using het
    · rw [generateKhutba_ok env purpose _ (by rw [hinner])]
      simp [hsw]

def envC8w : Env :=
  { online := true
  , fetches := fun i =>
      if i == 0 then .reject "Failed to fetch"
      else if i == 1 then .reject "Network error"
      else .resolve 200 "OK" "" jsPlain
  , randomIndex := 2 }

/-- Witness for C8: two simulated network failures, then a success carrying
`audio_url = "foo.wav"`. -/
theorem khutba_two_network_failures_then_success_witness :
    (generateKhutbaRun envC8w "unity").attempts = 3 ∧
    (generateKhutba envC8w "unity").errorType = none ∧
    (generateKhutba envC8w "unity").fullAudioUrl =
      some (if startsWithS "foo.wav" "http" = true then "foo.wav"
            else API_BASE_URL ++
              if startsWithS "foo.wav" "/" = true then "foo.wav"
              else "/" ++ "foo.wav") :=
  khutba_two_network_failures_then_success envC8w "unity"
    "Failed to fetch" "Network error" 200 "OK" "" jsPlain
    rfl rfl (by decide) (by decide) rfl (by decide) (by decide) rfl
    (by decide) (by decide) rfl

def jsIgnored : Sermon := { audio_url := "a.wav", text := "t", title := "T" }

def envC5cex : Env :=
  { online := true
  , fetches := fun _ =>
      .resolve 500 "Internal Server Error" "Something went wrong" jsIgnored
  , randomIndex := 0 }

/-- Counterexample to C5: a plain 500 with a generic body is NOT reissued —
only one attempt occurs although two retries remained. -/
theorem khutba_generic_500_retry_counterexample :
    ¬ (2 ≤ (generateKhutbaRun envC5cex "grief").attempts) := by decide

/-- Claim C5 (corrected): a non-success, non-auth HTTP status is retried
only when its composed error message matches the network markers; a generic
failure message is NOT retried — exactly one attempt occurs and the call
falls through to the fallback path with an errorType set. -/
theorem khutba_generic_http_failure_not_retried (env : Env) (purpose : String)
    (st : Nat) (stt bt : String) (js : Sermon)
    (hon : env.online = true)
    (hf : env.fetches 0 = .resolve st stt bt js)
    (hok : respOk st = false)
    (hauth : isAuthResponse st bt = false)
    (hac : isAuthCatch (serverErrorMessage st stt bt) = false)
    (hnet : isNetworkErrorMsg (serverErrorMessage st stt bt) = false) :
    (generateKhutbaRun env purpose).attempts = 1 ∧
    ((generateKhutba env purpose).errorType).isSome = true := by
  have hta : tryFetchAttempt env purpose 0 =
      .error (serverErrorMessage st stt bt) := by
    rw [tryFetchAttempt, hf]
    simp [hok, hauth]
  have hinner : innerBody env purpose =
      { result := .error (serverErrorMessage st stt bt)
      , attempts := 1, waits := [] } := by
    simp [innerBody, hon, maxRetries, runLoop, hta, hac, hnet]
  refine ⟨by rw [generateKhutbaRun_attempts, hinner], ?_⟩
  rw [generateKhutbaRun_fail env purpose _ (by rw [hinner])]
  rfl

/-- Witness for the corrected C5 at a plain 500 response. -/
theorem khutba_generic_http_failure_not_retried_witness :
    (generateKhutbaRun envC5cex "grief").attempts = 1 ∧
    ((generateKhutba envC5cex "grief").errorType).isSome = true :=
  khutba_generic_http_failure_not_retried envC5cex "grief"
    500 "Internal Server Error" "Something went wrong" jsIgnored
    rfl rfl (by decide) (by decide) (by decide) (by decide)

def envC6cex : Env :=
  { online := true
  , fetches := fun i =>
      if i < 2 then .reject "Failed to fetch" else .resolve 200 "OK" "" jsPlain
  , randomIndex := 0 }

/-- Counterexample to C6: with two retried network failures the waits are
2000 ms and 4000 ms, not the claimed 1000 ms and 2000 ms. -/
theorem khutba_backoff_counterexample :
    (generateKhutbaRun envC6cex "unity").waits = [2000, 4000] ∧
    (generateKhutbaRun envC6cex "unity").waits ≠ [1000, 2000] := by decide

/-- Claim C6 (corrected): the delay before retry n (n starting at 0) is
`1000 * 2 ^ (n + 1)` milliseconds — 2000 ms before the first retry and
4000 ms before the second — because the source increments `retryCount`
before computing the wait. -/
theorem khutba_backoff_waits_doubled (env : Env) (purpose m0 m1 : String)
    (hon : env.online = true)
    (h0 : env.fetches 0 = .reject m0)
    (hn0 : isNetworkErrorMsg m0 = true) (ha0 : isAuthCatch m0 = false)
    (h1 : env.fetches 1 = .reject m1)
    (hn1 : isNetworkErrorMsg m1 = true) (ha1 : isAuthCatch m1 = false) :
    (generateKhutbaRun env purpose).waits =
      [1000 * 2 ^ (0 + 1), 1000 * 2 ^ (1 + 1)] := by
  have hta0 : tryFetchAttempt env purpose 0 = .error m0 := by
    rw [tryFetchAttempt, h0]
  have hta1 : tryFetchAttempt env purpose 1 = .error m1 := by
    rw [tryFetchAttempt, h1]
  rw [generateKhutbaRun_waits]
  have h3 : maxRetries + 1 = 3 := rfl
  rw [innerBody, if_pos hon, h3]
  simp [runLoop, hta0, hta1, ha0, ha1, hn0, hn1, maxRetries]
  rcases tryFetchAttempt env purpose 2 with msg | s <;> rfl

/-- Witness for the corrected C6: two network failures then success give
waits of 2000 ms and 4000 ms. -/
theorem khutba_backoff_waits_doubled_witness :
    (generateKhutbaRun envC6cex "unity").waits =
      [1000 * 2 ^ (0 + 1), 1000 * 2 ^ (1 + 1)] :=
  khutba_backoff_waits_doubled envC6cex "unity" "Failed to fetch" "Failed to fetch"
    rfl rfl (by decide) (by decide) rfl (by decide) (by decide)

/-- The invariant as the spec words it: the sermon's resolved audio URL is
present and absolute (starts with "http"). -/
def isResolvedAbsolute (s : Sermon) : Prop :=
  ∃ u, s.fullAudioUrl = some u ∧ startsWithS u "http" = true

def envC3cex : Env :=
  { online := true
  , fetches := fun _ => .resolve 200 "OK" "" jsEmpty
  , randomIndex := 0 }

/-- Counterexample to C3: a success response with an empty `audio_url`
yields `fullAudioUrl = some ""`, which is not an absolute URL. -/
theorem khutba_absolute_url_counterexample :
    ¬ isResolvedAbsolute (generateKhutba envC3cex "peace") := by
  rintro ⟨u, hu, hsw⟩
  have h : (generateKhutba envC3cex "peace").fullAudioUrl = some "" := by decide
  rw [h] at hu
  injection hu with h2
  subst h2
  exact absurd hsw (by decide)

/-- Claim C3 (corrected): every sermon returned by `generateKhutba` carries
an absolute (http-prefixed) `fullAudioUrl` — passed through, base-prefixed,
or from the fallback table — except that a success response with an empty
`audio_url` yields the empty string instead. -/
theorem khutba_absolute_url_unless_empty (env : Env) (purpose : String) :
    isResolvedAbsolute (generateKhutba env purpose) ∨
      (generateKhutba env purpose).fullAudioUrl = some "" := by
  rcases h : (innerBody env purpose).result with msg | s
  · left
    rw [generateKhutbaRun_fail env purpose msg h]
    rcases table_absolute env.randomIndex with ⟨u, hu, hsw⟩
    exact ⟨u, hu, hsw⟩
  · have hg := generateKhutba_ok env purpose s h
    obtain ⟨i, hi⟩ := innerBody_ok_exists env purpose s h
    rcases tryFetchAttempt_ok_shape env purpose i s hi with he | ⟨u, hu, hsw⟩
    · right
      rw [hg]
      exact he
    · left
      rw [hg]
      exact ⟨u, hu, hsw⟩
